import Mathlib

/-!
Verification development for the Docling batch converter (`doc_ling.py`).

The definitions below are a shallow embedding of the source module:
pure path arithmetic mirrors `pathlib`, the per-job pipeline
`process_file` is translated statement by statement, and `mainRun`
mirrors the orchestration in `main`.  External collaborators
(DocumentConverter, easyocr readers, the filesystem) are modelled by an
environment record supplying each call's outcome.
-/

namespace DocLing

/-! ## Paths (model of `pathlib.Path`) -/

/-- A filesystem path, as its list of components. -/
structure PyPath where
  components : List String
deriving DecidableEq, Repr

/-- `Path.name`: the final component (empty for the empty path). -/
def PyPath.name (p : PyPath) : String :=
  p.components.getLastD ""

/-- `Path.parent`: drop the final component. -/
def PyPath.parent (p : PyPath) : PyPath :=
  ⟨p.components.dropLast⟩

/-- `p / s` for a single extra component. -/
def PyPath.div (p : PyPath) (s : String) : PyPath :=
  ⟨p.components ++ [s]⟩

/-- `p / q` for a relative path `q`. -/
def PyPath.joins (p q : PyPath) : PyPath :=
  ⟨p.components ++ q.components⟩

/-- Boolean list-prefix test used by `relative_to`. -/
def isPrefixList : List String → List String → Bool
  | [], _ => true
  | _ :: _, [] => false
  | a :: as, b :: bs => a == b && isPrefixList as bs

/-- `Path.relative_to(base)`: drop `base` as a prefix, `none` models the
`ValueError` raised when `base` is not a prefix of the path. -/
def PyPath.relative_to (p base : PyPath) : Option PyPath :=
  if isPrefixList base.components p.components then
    some ⟨p.components.drop base.components.length⟩
  else none

/-- Index of the last '.' in a character list, if any. -/
def rfindDot : List Char → Option Nat
  | [] => none
  | c :: cs =>
    match rfindDot cs with
    | some i => some (i + 1)
    | none => if c = '.' then some 0 else none

/-- `PurePath.suffix` of a final component: the last dot-extension, empty
when the only dot is leading or trailing. -/
def nameSuffix (nm : String) : String :=
  let cs := nm.data
  match rfindDot cs with
  | none => ""
  | some i => if 0 < i && i + 1 < cs.length then String.mk (cs.drop i) else ""

/-- `PurePath.stem` of a final component. -/
def nameStem (nm : String) : String :=
  let cs := nm.data
  match rfindDot cs with
  | none => nm
  | some i => if 0 < i && i + 1 < cs.length then String.mk (cs.take i) else nm

/-- `Path.suffix`. -/
def PyPath.suffix (p : PyPath) : String := nameSuffix p.name

/-- `Path.stem`. -/
def PyPath.stem (p : PyPath) : String := nameStem p.name

/-- `str.lower()` (ASCII, as used on extension strings). -/
def lowerStr (s : String) : String := String.mk (s.data.map Char.toLower)

/-- `str(path)` rendering used in log and CSV lines. -/
def pathStr (p : PyPath) : String := String.intercalate "/" p.components

/-! ## Output path mapping

`taskOutputPath` is translated from `process_file` lines 132-136;
`auditOutputPath` is independently translated from the audit expression
in `main` lines 216-219. -/

/-- Output path computed inside `process_file` (lines 132-136). -/
def taskOutputPath (output_root : PyPath) (format_key : String)
    (input_base : PyPath) (file_path : PyPath) (ext : String) : Option PyPath :=
  let input_name := input_base.name
  match PyPath.relative_to file_path.parent input_base with
  | none => none
  | some relative_path =>
    let target_dir := PyPath.joins ((output_root.div format_key).div input_name) relative_path
    some (target_dir.div (file_path.stem ++ "." ++ ext))

/-- Output path recomputed by the summary audit in `main` (lines 216-219). -/
def auditOutputPath (base_output_dir : PyPath) (format_key : String)
    (input_base : PyPath) (f : PyPath) (ext : String) : Option PyPath :=
  match PyPath.relative_to f.parent input_base with
  | none => none
  | some rel =>
    some ((PyPath.joins ((base_output_dir.div format_key).div input_base.name) rel).div
      (f.stem ++ "." ++ ext))

/-! ## Exceptions and collaborators -/

/-- The Python exception kinds this program can raise or catch. -/
inductive Exc where
  | fileNotFoundError : String → Exc
  | runtimeError : String → Exc
  | valueError : String → Exc
  | attributeError : String → Exc
  | keyError : String → Exc
deriving DecidableEq, Repr

/-- Message text of an exception, as interpolated into log lines. -/
def excMsg : Exc → String
  | Exc.fileNotFoundError m => m
  | Exc.runtimeError m => m
  | Exc.valueError m => m
  | Exc.attributeError m => m
  | Exc.keyError m => m

/-- The outer handler `except (FileNotFoundError, RuntimeError, ValueError)`
at line 138. -/
def caughtByOuter : Exc → Bool
  | Exc.fileNotFoundError _ => true
  | Exc.runtimeError _ => true
  | Exc.valueError _ => true
  | Exc.attributeError _ => false
  | Exc.keyError _ => false

/-- The inner handler `except (RuntimeError, ValueError)` at line 123. -/
def caughtByInner : Exc → Bool
  | Exc.runtimeError _ => true
  | Exc.valueError _ => true
  | _ => false

/-- An easyocr `Reader` instance: device flag and an instance identity. -/
inductive Reader where
  | mk : Bool → Nat → Reader
deriving DecidableEq, Repr

/-- Module global `OCR_READER_GPU` (line 18): assigned `None` at import and
never reassigned anywhere in the module. -/
def OCR_READER_GPU : Option Reader := none

/-- Module global `OCR_READER_CPU` (line 19): assigned `None` at import and
never reassigned anywhere in the module. -/
def OCR_READER_CPU : Option Reader := none

/-- Behaviour of the external collaborators for one job, plus the
worker-side value of the import-time flag `GPU_AVAILABLE`. -/
structure Env where
  gpuAvailable : Bool
  convertResult : Except Exc Unit
  gpuReadtext : Except Exc Nat
  cpuReadtext : Except Exc Nat
  mkdirResult : Except Exc Unit
  saveResult : Except Exc Unit

/-- Observable events of one task, in program order. -/
inductive Event where
  | logLine : String → Event
  | gpuReadCall : Event
  | cpuReadCall : Event
  | readerCreated : Bool → Event
  | mkdirCall : PyPath → Event
  | saveCall : PyPath → Event
deriving DecidableEq, Repr

/-- The log lines of an event trace. -/
def evLogs (t : List Event) : List String :=
  t.filterMap fun e =>
    match e with
    | Event.logLine s => some s
    | _ => none

/-- Calling `.readtext(...)` on an optional reader: on `None` Python raises
`AttributeError`; on a real reader the engine runs with the environment's
outcome, and the call is recorded as an event. -/
def readtextCall (env : Env) (r : Option Reader) : Except Exc Nat × List Event :=
  match r with
  | none => (Except.error (Exc.attributeError "NoneType object has no attribute readtext"), [])
  | some (Reader.mk true _) => (env.gpuReadtext, [Event.gpuReadCall])
  | some (Reader.mk false _) => (env.cpuReadtext, [Event.cpuReadCall])

/-! ## Save handlers -/

/-- The five format-specific save helpers. -/
inductive SaveKind where
  | html | json | md | txt | doctags
deriving DecidableEq, Repr

/-- The `handlers` dict of `process_file` (lines 103-109). -/
def handlers : List (String × SaveKind) :=
  [("html", SaveKind.html), ("json", SaveKind.json), ("md", SaveKind.md),
   ("txt", SaveKind.txt), ("doctags", SaveKind.doctags)]

/-- Python dict lookup over an association list. -/
def dictGet {α : Type} (d : List (String × α)) (k : String) : Option α :=
  (d.find? fun kv => kv.1 == k).map fun kv => kv.2

/-- Word used in each save helper's log line. -/
def saveLogWord : SaveKind → String
  | SaveKind.html => "HTML"
  | SaveKind.json => "JSON"
  | SaveKind.md => "Markdown"
  | SaveKind.txt => "Text"
  | SaveKind.doctags => "Doctags"

/-- Log line of a successful save helper. -/
def savedLine (k : SaveKind) (p : PyPath) : String :=
  let w := saveLogWord k
  let ps := pathStr p
  s!"Saved {w} to {ps}"

/-- Log line of the GPU OCR attempt (line 119-120). -/
def gpuLogLine (nm : String) (n : Nat) : String :=
  s!"GPU OCR result for {nm}: {n} lines detected"

/-- Fallback notice (line 126). -/
def fallbackLine (nm : String) : String :=
  s!"GPU OCR failed for {nm}, falling back to CPU OCR."

/-- Log line of the CPU OCR attempt (lines 128-130). -/
def cpuLogLine (nm : String) (m : Nat) : String :=
  s!"CPU OCR result for {nm}: {m} lines detected"

/-- Error line of the task boundary handler (line 139). -/
def errorLine (nm : String) (e : Exc) : String :=
  let m := excMsg e
  s!"Error processing {nm}: {m}"

/-! ## The OCR fallback block (lines 115-130) -/

/-- Image extensions gating the OCR block (line 115). -/
def imageExts : List String := [".jpg", ".jpeg", ".png"]

/-- The OCR block of `process_file`: returns the exception escaping the
block, if any, together with the event trace.  The primary attempt reads
through module global `OCR_READER_GPU`; the fallback is guarded first by
module global `OCR_READER_CPU` and then by the local `ocr_reader_cpu`. -/
def ocrBlock (env : Env) (file_path : PyPath) (use_gpu : Bool)
    (ocr_reader_cpu : Option Reader) : Option Exc × List Event :=
  if use_gpu && imageExts.contains (lowerStr file_path.suffix) then
    let nm := file_path.name
    let primary : Except Exc Nat × List Event :=
      if env.gpuAvailable then readtextCall env OCR_READER_GPU
      else (Except.error (Exc.runtimeError "GPU not available"), [])
    match primary with
    | (Except.ok n, t) => (none, t ++ [Event.logLine (gpuLogLine nm n)])
    | (Except.error e, t) =>
      if caughtByInner e then
        if OCR_READER_CPU.isSome then
          if ocr_reader_cpu.isSome then
            match readtextCall env ocr_reader_cpu with
            | (Except.error e2, t2) =>
              (some e2, t ++ [Event.logLine (fallbackLine nm)] ++ t2)
            | (Except.ok m, t2) =>
              (none, t ++ [Event.logLine (fallbackLine nm)] ++ t2 ++
                [Event.logLine (cpuLogLine nm m)])
          else (none, t)
        else (none, t)
      else (some e, t)
  else (none, [])

/-! ## The per-job pipeline `process_file` (lines 70-139) -/

/-- Result of one `process_file` call: normal return, or an exception
propagating out of the function. -/
inductive TaskResult where
  | normal : TaskResult
  | uncaught : Exc → TaskResult
deriving DecidableEq, Repr

/-- Shallow embedding of `process_file`.  The handle initialization of
lines 98-100 rebinds the local parameters only; the handler lookup of
line 110 sits outside the `try`; the `try` body runs convert, the OCR
block, path resolution, `mkdir` and the save helper; line 138 catches
`FileNotFoundError`, `RuntimeError` and `ValueError` only. -/
def process_file (env : Env) (file_path : PyPath) (ext : String)
    (output_root : PyPath) (format_key : String) (input_base : PyPath)
    (use_gpu : Bool) (ocr_reader_gpu ocr_reader_cpu : Option Reader) :
    TaskResult × List Event :=
  let doInit := use_gpu && env.gpuAvailable && ocr_reader_gpu.isNone
  let initEvents :=
    if doInit then [Event.readerCreated true, Event.readerCreated false] else []
  let ocr_reader_gpu := if doInit then some (Reader.mk true 0) else ocr_reader_gpu
  let ocr_reader_cpu := if doInit then some (Reader.mk false 1) else ocr_reader_cpu
  match dictGet handlers format_key with
  | none => (TaskResult.uncaught (Exc.keyError format_key), initEvents)
  | some save_kind =>
    let body : Option Exc × List Event :=
      match env.convertResult with
      | Except.error e => (some e, [])
      | Except.ok _ =>
        match ocrBlock env file_path use_gpu ocr_reader_cpu with
        | (some e, t1) => (some e, t1)
        | (none, t1) =>
          match PyPath.relative_to file_path.parent input_base with
          | none => (some (Exc.valueError "relative path error"), t1)
          | some relative_path =>
            let input_name := input_base.name
            let target_dir :=
              PyPath.joins ((output_root.div format_key).div input_name) relative_path
            match env.mkdirResult with
            | Except.error e => (some e, t1 ++ [Event.mkdirCall target_dir])
            | Except.ok _ =>
              let target_file := target_dir.div (file_path.stem ++ "." ++ ext)
              match env.saveResult with
              | Except.error e =>
                (some e, t1 ++ [Event.mkdirCall target_dir, Event.saveCall target_file])
              | Except.ok _ =>
                (none, t1 ++ [Event.mkdirCall target_dir, Event.saveCall target_file,
                  Event.logLine (savedLine save_kind target_file)])
    match body with
    | (none, t) => (TaskResult.normal, initEvents ++ t)
    | (some e, t) =>
      if caughtByOuter e then
        (TaskResult.normal, initEvents ++ t ++ [Event.logLine (errorLine file_path.name e)])
      else (TaskResult.uncaught e, initEvents ++ t)

/-- One worker consuming its share of jobs: `main` submits every job with
`ocr_reader_gpu=None` and `ocr_reader_cpu=None` bound in the `partial`
application (lines 190-201). -/
def workerRun (env : Env) (files : List PyPath) (ext : String)
    (output_root : PyPath) (format_key : String) (input_base : PyPath)
    (use_gpu : Bool) : List (TaskResult × List Event) :=
  files.map fun fp =>
    process_file env fp ext output_root format_key input_base use_gpu none none

/-- Number of `Reader(...)` constructions in a trace. -/
def readerCreations (t : List Event) : Nat :=
  t.countP fun e =>
    match e with
    | Event.readerCreated _ => true
    | _ => false

/-- Number of CPU-engine `readtext` calls in a trace. -/
def cpuReadCount (t : List Event) : Nat :=
  t.countP fun e =>
    match e with
    | Event.cpuReadCall => true
    | _ => false

/-- The save-helper invocations of a trace. -/
def saveCalls (t : List Event) : List PyPath :=
  t.filterMap fun e =>
    match e with
    | Event.saveCall p => some p
    | _ => none

/-- The `mkdir` invocations of a trace. -/
def mkdirCalls (t : List Event) : List PyPath :=
  t.filterMap fun e =>
    match e with
    | Event.mkdirCall p => some p
    | _ => none

/-! ## Job enumeration (lines 179-183) -/

/-- A filesystem tree entry: a regular file or a directory. -/
inductive FSEntry where
  | file : String → FSEntry
  | dir : String → List FSEntry → FSEntry

/-- Name of an entry. -/
def FSEntry.name : FSEntry → String
  | FSEntry.file n => n
  | FSEntry.dir n _ => n

/-- Whether an entry is a regular file. -/
def FSEntry.isFile : FSEntry → Bool
  | FSEntry.file _ => true
  | FSEntry.dir _ _ => false

mutual

/-- All strict descendants of an entry, as `rglob` enumerates them:
relative component path paired with the entry reached.  Directories are
enumerated exactly like files. -/
def FSEntry.descendants : FSEntry → List (List String × FSEntry)
  | FSEntry.file _ => []
  | FSEntry.dir _ children => descendantsList children

/-- Descendants of a list of sibling entries. -/
def descendantsList : List FSEntry → List (List String × FSEntry)
  | [] => []
  | e :: rest =>
    ([e.name], e) :: ((FSEntry.descendants e).map fun pr => (e.name :: pr.1, pr.2)) ++
      descendantsList rest

end

/-- Supported source extensions (line 179). -/
def supported_exts : List String := [".pdf", ".jpg", ".jpeg", ".png", ".tiff", ".bmp"]

/-- Job enumeration of `main` (lines 181-183): a single file is taken as
is; a directory is walked with `rglob` and filtered by lower-cased path
suffix. -/
def filesOf (entry : FSEntry) (source_path : PyPath) : List PyPath :=
  match entry with
  | FSEntry.file _ => [source_path]
  | FSEntry.dir _ children =>
    (descendantsList children).filterMap fun pr =>
      let f : PyPath := ⟨source_path.components ++ pr.1⟩
      if supported_exts.contains (lowerStr f.suffix) then some f else none

/-- `input_base` selection of `main` (line 181). -/
def inputBaseOf (entry : FSEntry) (source_path : PyPath) : PyPath :=
  match entry with
  | FSEntry.dir _ _ => source_path
  | FSEntry.file _ => source_path.parent

/-! ## The orchestration `main` (lines 142-226) -/

/-- Format menu mapping (lines 167-168). -/
def format_map : List (String × String) :=
  [("1", "html"), ("2", "json"), ("3", "md"), ("4", "txt"), ("5", "doctags")]

/-- Environment of one `main` run: console answers, the filesystem entry
behind the input path, and the audit-time existence predicate. -/
structure MainEnv where
  sourcePath : PyPath
  sourceExists : Bool
  entry : FSEntry
  formatChoice : String
  parentGpuAvailable : Bool
  gpuAnswerY : Bool
  scriptDir : PyPath
  existsAt : PyPath → Bool
  timestamps : Nat → String
  timingLine : String

/-- Observable outcome of one `main` run. -/
structure MainOutcome where
  logs : List String
  poolStarted : Bool
  jobs : Option (List PyPath)
  csvPath : Option PyPath
  csv : Option (List (List String))
  crashed : Bool
deriving DecidableEq, Repr

/-- Fixed log lines of `main`. -/
def welcomeLine : String := "Welcome to Docling file format converter!"

/-- Abort message for a missing input path (line 156). -/
def notExistLine : String := "File or folder does not exist. Exiting."

/-- Abort message for an invalid menu choice (line 171). -/
def invalidLine : String := "Invalid choice. Exiting."

/-- The format menu block (lines 159-164). -/
def menuLines : List String :=
  ["\nSelect output format:",
   "1. HTML   (image embedding and referencing supported)",
   "2. JSON   (lossless serialization of Docling Document)",
   "3. Markdown",
   "4. Text   (plain text, no Markdown markers)",
   "5. Doctags"]

/-- Banner line (lines 186, 188, 204, 226): forty-eight equal signs. -/
def bannerLine : String := String.mk (List.replicate 48 '=')

/-- The audit loop of the CSV writer (lines 216-220): one row per job,
recomputing the output path; a `relative_to` failure would surface as an
uncaught `ValueError`. -/
def buildRows (existsAt : PyPath → Bool) (ts : Nat → String)
    (base_output_dir : PyPath) (format_key : String) (input_base : PyPath)
    (ext : String) : Nat → List PyPath → Except Exc (List (List String))
  | _, [] => Except.ok []
  | i, f :: rest =>
    match auditOutputPath base_output_dir format_key input_base f ext with
    | none => Except.error (Exc.valueError "relative path error")
    | some output_path =>
      let status := if existsAt output_path then "Success" else "Failed"
      match buildRows existsAt ts base_output_dir format_key input_base ext (i + 1) rest with
      | Except.error e => Except.error e
      | Except.ok rows => Except.ok ([pathStr f, status, ts i] :: rows)

/-- The success counter of `main` (lines 206-208). -/
def successCountE (existsAt : PyPath → Bool) (base_output_dir : PyPath)
    (format_key : String) (input_base : PyPath) (ext : String) :
    List PyPath → Except Exc Nat
  | [] => Except.ok 0
  | f :: rest =>
    match auditOutputPath base_output_dir format_key input_base f ext with
    | none => Except.error (Exc.valueError "relative path error")
    | some p =>
      match successCountE existsAt base_output_dir format_key input_base ext rest with
      | Except.error e => Except.error e
      | Except.ok n => Except.ok ((if existsAt p then 1 else 0) + n)

/-- Shallow embedding of `main`: prompts, early exits, enumeration, the
pool barrier, the filesystem audit and the CSV report.  Worker-side
effects are modelled separately by `workerRun`. -/
def mainRun (env : MainEnv) : MainOutcome :=
  let logs0 := [welcomeLine]
  match env.sourceExists with
  | false =>
    ⟨logs0 ++ [notExistLine], false, none, none, none, false⟩
  | true =>
    let logs1 := logs0 ++ menuLines
    match dictGet format_map env.formatChoice with
    | none => ⟨logs1 ++ [invalidLine], false, none, none, none, false⟩
    | some format_key =>
      let base_output_dir := env.scriptDir.div "output"
      let ext := format_key
      let input_base := inputBaseOf env.entry env.sourcePath
      let files := filesOf env.entry env.sourcePath
      let sp := pathStr env.sourcePath
      let logs2 := logs1 ++ [bannerLine, s!"Processing... {sp}", bannerLine ++ "\n"]
      let logs3 := logs2 ++ [env.timingLine, bannerLine, "done!"]
      match successCountE env.existsAt base_output_dir format_key input_base ext files with
      | Except.error _ => ⟨logs3, true, some files, none, none, true⟩
      | Except.ok success_count =>
        let failure_count := files.length - success_count
        let csv_path := base_output_dir.div "conversion_summary.csv"
        match buildRows env.existsAt env.timestamps base_output_dir format_key
            input_base ext 0 files with
        | Except.error _ => ⟨logs3, true, some files, some csv_path, none, true⟩
        | Except.ok rows =>
          let table := ["File", "Status", "Timestamp"] :: rows
          let n := files.length
          let sline := s!"Successfully converted: {success_count}"
          let fline := s!"Failed conversions: {failure_count}"
          let tline := s!"Total files processed: {n}"
          let warnLines :=
            if files.length == 0 then
              ["Warning: No supported input files were found."]
            else []
          ⟨logs3 ++ [sline, fline, tline] ++ warnLines ++ [bannerLine],
            true, some files, some csv_path, some table, false⟩

end DocLing



namespace DocLing

/-! ## Theorems -/

/-- Claim C1.  The code bug at the failing input: for an OCR-eligible job
with GPU support enabled and available, and a successful conversion, the
primary OCR attempt dereferences the never-assigned module global
`OCR_READER_GPU`, and the resulting `AttributeError` matches neither
`except` clause: `process_file` ends with an uncaught exception, no
error line is logged, and the task does not end as a logged failure. -/
theorem c1_exception_escapes_task :
    process_file ⟨true, Except.ok (), Except.ok 5, Except.ok 5, Except.ok (), Except.ok ()⟩
      ⟨["in", "img.jpg"]⟩ "json" ⟨["out"]⟩ "json" ⟨["in"]⟩ true none none
    = (TaskResult.uncaught (Exc.attributeError "NoneType object has no attribute readtext"),
       [Event.readerCreated true, Event.readerCreated false]) := by
  decide

/-- Claim C2.  The output path computed inside `process_file` and the
path independently recomputed by the summary audit in `main` agree on
every job. -/
theorem c2_task_and_audit_paths_agree (output_root : PyPath) (format_key : String)
    (input_base : PyPath) (file_path : PyPath) (ext : String) :
    taskOutputPath output_root format_key input_base file_path ext
    = auditOutputPath output_root format_key input_base file_path ext := by
  unfold taskOutputPath auditOutputPath
  cases PyPath.relative_to file_path.parent input_base <;> rfl

/-- Claim C4.  The code bug at the failing input: the accelerated attempt
raises a recoverable `RuntimeError` (engine unavailable in the worker)
and a standard reader handle was passed in, yet no standard-engine
attempt follows and neither fallback log line is emitted, because the
fallback is guarded by the never-assigned module global
`OCR_READER_CPU`. -/
theorem c4_fallback_skipped :
    cpuReadCount (process_file
        ⟨false, Except.ok (), Except.ok 1, Except.ok 3, Except.ok (), Except.ok ()⟩
        ⟨["in", "scan.jpg"]⟩ "md" ⟨["out"]⟩ "md" ⟨["in"]⟩
        true none (some (Reader.mk false 7))).2 = 0 ∧
    fallbackLine "scan.jpg" ∉ evLogs (process_file
        ⟨false, Except.ok (), Except.ok 1, Except.ok 3, Except.ok (), Except.ok ()⟩
        ⟨["in", "scan.jpg"]⟩ "md" ⟨["out"]⟩ "md" ⟨["in"]⟩
        true none (some (Reader.mk false 7))).2 ∧
    cpuLogLine "scan.jpg" 3 ∉ evLogs (process_file
        ⟨false, Except.ok (), Except.ok 1, Except.ok 3, Except.ok (), Except.ok ()⟩
        ⟨["in", "scan.jpg"]⟩ "md" ⟨["out"]⟩ "md" ⟨["in"]⟩
        true none (some (Reader.mk false 7))).2 := by
  refine ⟨by decide, by decide, by decide⟩

/-- Claim C5.  The code bug at the failing input: on an OCR-eligible job
the OCR block raises an `AttributeError` out of its own `try`, the task
never reaches the path-resolution, `mkdir` or save steps, and the
exception leaves `process_file`. -/
theorem c5_ocr_error_escapes_block :
    (process_file ⟨true, Except.ok (), Except.ok 2, Except.ok 2, Except.ok (), Except.ok ()⟩
        ⟨["base", "photo.png"]⟩ "txt" ⟨["out"]⟩ "txt" ⟨["base"]⟩ true none none).1
      = TaskResult.uncaught (Exc.attributeError "NoneType object has no attribute readtext") ∧
    saveCalls (process_file ⟨true, Except.ok (), Except.ok 2, Except.ok 2, Except.ok (),
        Except.ok ()⟩
        ⟨["base", "photo.png"]⟩ "txt" ⟨["out"]⟩ "txt" ⟨["base"]⟩ true none none).2 = [] ∧
    mkdirCalls (process_file ⟨true, Except.ok (), Except.ok 2, Except.ok 2, Except.ok (),
        Except.ok ()⟩
        ⟨["base", "photo.png"]⟩ "txt" ⟨["out"]⟩ "txt" ⟨["base"]⟩ true none none).2 = [] := by
  refine ⟨by decide, by decide, by decide⟩

/-- Claim C6.  The code bug at the failing input: a worker that executes
two OCR-requiring jobs constructs two fresh `Reader` instances on each
of the two jobs, because `main` always passes `None` handles and the
locals initialized inside `process_file` are discarded when it returns:
nothing is created once and reused. -/
theorem c6_readers_recreated_per_job :
    (workerRun ⟨true, Except.ok (), Except.ok 1, Except.ok 1, Except.ok (), Except.ok ()⟩
        [⟨["in", "a.jpg"]⟩, ⟨["in", "b.jpg"]⟩] "md" ⟨["out"]⟩ "md" ⟨["in"]⟩ true).map
      (fun r => readerCreations r.2) = [2, 2] := by
  decide

/-- Claim C9.  Two source files with the same parent and the same stem
are mapped to the same output path, for every output root, format key,
input base and target extension: distinct source extensions collide. -/
theorem c9_stem_collision (output_root : PyPath) (format_key : String)
    (input_base : PyPath) (ext : String) (f g : PyPath)
    (hne : f ≠ g) (hsuf : PyPath.suffix f ≠ PyPath.suffix g)
    (hpar : PyPath.parent f = PyPath.parent g) (hstem : PyPath.stem f = PyPath.stem g) :
    taskOutputPath output_root format_key input_base f ext
    = taskOutputPath output_root format_key input_base g ext := by
  unfold taskOutputPath
  rw [hpar, hstem]

/-- Claim C9, witness: `b/doc.pdf` and `b/doc.png` are distinct, have
distinct suffixes, and collide on the same output path. -/
theorem c9_stem_collision_witness :
    (⟨["b", "doc.pdf"]⟩ : PyPath) ≠ ⟨["b", "doc.png"]⟩ ∧
    taskOutputPath ⟨["out"]⟩ "md" ⟨["b"]⟩ ⟨["b", "doc.pdf"]⟩ "md"
      = taskOutputPath ⟨["out"]⟩ "md" ⟨["b"]⟩ ⟨["b", "doc.png"]⟩ "md" :=
  ⟨by decide,
   c9_stem_collision ⟨["out"]⟩ "md" ⟨["b"]⟩ "md" ⟨["b", "doc.pdf"]⟩ ⟨["b", "doc.png"]⟩
     (by decide) (by decide) (by decide) (by decide)⟩

/-- Claim C10.  The `handlers[format_key]` lookup sits outside the
`try`: an unknown format key leaves `process_file` as an uncaught
`KeyError` with nothing logged; and every key produced by `main`'s
`format_map` validation is in the handler table, so the branch is
unreachable in the program. -/
theorem c10_handler_lookup :
    (∀ (env : Env) (file_path : PyPath) (ext : String) (output_root : PyPath)
        (format_key : String) (input_base : PyPath) (use_gpu : Bool)
        (g c : Option Reader),
      dictGet handlers format_key = none →
      (process_file env file_path ext output_root format_key input_base use_gpu g c).1
        = TaskResult.uncaught (Exc.keyError format_key)) ∧
    (∀ (choice k : String),
      dictGet format_map choice = some k → (dictGet handlers k).isSome = true) := by
  constructor
  · intro env file_path ext output_root format_key input_base use_gpu g c h
    unfold process_file
    rw [h]
  · intro choice k h
    unfold dictGet at h
    cases hf : List.find? (fun kv => kv.1 == choice) format_map with
    | none =>
      rw [hf] at h
      exact Option.noConfusion h
    | some kv =>
      rw [hf] at h
      have hk : kv.2 = k := Option.some.inj h
      have hmem := List.mem_of_find?_eq_some hf
      rw [← hk]
      fin_cases hmem <;> decide

/-- Claim C10, witness: `"pdf"` is not a handler key and makes
`process_file` end with an uncaught `KeyError`, while menu choice `"2"`
produces key `"json"`, which the handler table resolves. -/
theorem c10_handler_lookup_witness :
    (process_file ⟨false, Except.ok (), Except.ok 0, Except.ok 0, Except.ok (), Except.ok ()⟩
        ⟨["in", "a.pdf"]⟩ "pdf" ⟨["out"]⟩ "pdf" ⟨["in"]⟩ false none none).1
      = TaskResult.uncaught (Exc.keyError "pdf") ∧
    (dictGet handlers "json").isSome = true :=
  ⟨c10_handler_lookup.1 _ _ _ _ _ _ _ _ _ (by decide),
   c10_handler_lookup.2 "2" "json" (by decide)⟩

/-- Helper: every path produced by the recursive walk is nonempty. -/
theorem descendantsList_fst_ne_nil :
    ∀ (children : List FSEntry) (pr : List String × FSEntry),
      pr ∈ descendantsList children → pr.1 ≠ [] := by
  intro children
  induction children with
  | nil => intro pr h; simp [descendantsList] at h
  | cons e rest ih =>
    intro pr h
    simp only [descendantsList, List.mem_cons, List.mem_append, List.mem_map] at h
    rcases h with (h | h) | h
    · subst h; simp
    · obtain ⟨q, hq, hpr⟩ := h
      rw [← hpr]
      simp
    · exact ih pr h

/-- Helper: the boolean prefix test accepts every left factor. -/
theorem isPrefixList_append (l t : List String) : isPrefixList l (l ++ t) = true := by
  induction l with
  | nil => rfl
  | cons a l ih => simp [isPrefixList, ih]

/-- Helper: `relative_to` succeeds on any extension of the base. -/
theorem relative_to_append (base : PyPath) (t : List String) :
    PyPath.relative_to ⟨base.components ++ t⟩ base = some ⟨t⟩ := by
  unfold PyPath.relative_to
  rw [isPrefixList_append]
  simp [List.drop_left]

/-- Helper: every enumerated job sits under the chosen input base, so the
audit recomputation of its relative path succeeds. -/
theorem filesOf_relative_to_isSome (entry : FSEntry) (sp : PyPath) :
    ∀ f ∈ filesOf entry sp,
      ∃ rel, PyPath.relative_to (PyPath.parent f) (inputBaseOf entry sp) = some rel := by
  intro f hf
  cases entry with
  | file n =>
    simp only [filesOf, List.mem_singleton] at hf
    rw [hf]
    refine ⟨⟨[]⟩, ?_⟩
    have h := relative_to_append (PyPath.parent sp) []
    simpa [inputBaseOf] using h
  | dir n children =>
    simp only [filesOf, List.mem_filterMap] at hf
    obtain ⟨pr, hpr, hif⟩ := hf
    have hne := descendantsList_fst_ne_nil children pr hpr
    split at hif
    · have hfeq := Option.some.inj hif
      subst hfeq
      refine ⟨⟨pr.1.dropLast⟩, ?_⟩
      show PyPath.relative_to ⟨(sp.components ++ pr.1).dropLast⟩ sp = some ⟨pr.1.dropLast⟩
      rw [List.dropLast_append_of_ne_nil sp.components hne]
      exact relative_to_append sp pr.1.dropLast
    · exact Option.noConfusion hif

/-- Helper: a successful `relative_to` makes the audit path defined. -/
theorem auditOutputPath_isSome_of_rel {f ib : PyPath} (bod : PyPath) (fk ext : String)
    (h : ∃ rel, PyPath.relative_to (PyPath.parent f) ib = some rel) :
    ∃ p, auditOutputPath bod fk ib f ext = some p := by
  obtain ⟨rel, hrel⟩ := h
  refine ⟨(PyPath.joins ((bod.div fk).div ib.name) rel).div (f.stem ++ "." ++ ext), ?_⟩
  unfold auditOutputPath
  rw [hrel]

/-- Helper: the success counter finishes when every audit path is defined. -/
theorem successCountE_ok (existsAt : PyPath → Bool) (bod : PyPath) (fk : String)
    (ib : PyPath) (ext : String) :
    ∀ files : List PyPath,
      (∀ f ∈ files, ∃ p, auditOutputPath bod fk ib f ext = some p) →
      ∃ n, successCountE existsAt bod fk ib ext files = Except.ok n := by
  intro files
  induction files with
  | nil => intro hall; exact ⟨0, rfl⟩
  | cons f rest ih =>
    intro hall
    obtain ⟨p, hp⟩ := hall f (List.mem_cons_self f rest)
    obtain ⟨n, hn⟩ := ih fun g hg => hall g (List.mem_cons_of_mem f hg)
    refine ⟨(if existsAt p then 1 else 0) + n, ?_⟩
    unfold successCountE
    rw [hp, hn]

/-- Helper: the CSV row builder emits exactly one well-formed row per
job, in order, when every audit path is defined. -/
theorem buildRows_ok (existsAt : PyPath → Bool) (ts : Nat → String)
    (bod : PyPath) (fk : String) (ib : PyPath) (ext : String) :
    ∀ (files : List PyPath) (i : Nat),
      (∀ f ∈ files, ∃ p, auditOutputPath bod fk ib f ext = some p) →
      ∃ rows, buildRows existsAt ts bod fk ib ext i files = Except.ok rows ∧
        rows.length = files.length ∧
        ∀ (j : Nat) (f : PyPath), files[j]? = some f →
          ∃ p, auditOutputPath bod fk ib f ext = some p ∧
            rows[j]? = some [pathStr f,
              if existsAt p then "Success" else "Failed", ts (i + j)] := by
  intro files
  induction files with
  | nil =>
    intro i hall
    refine ⟨[], rfl, rfl, ?_⟩
    intro j f hjf
    simp at hjf
  | cons f rest ih =>
    intro i hall
    obtain ⟨p, hp⟩ := hall f (List.mem_cons_self f rest)
    obtain ⟨rows, hrows, hlen, hget⟩ :=
      ih (i + 1) fun g hg => hall g (List.mem_cons_of_mem f hg)
    refine ⟨[pathStr f, if existsAt p then "Success" else "Failed", ts i] :: rows,
      ?_, ?_, ?_⟩
    · unfold buildRows
      rw [hp, hrows]
    · simp [hlen]
    · intro j g hjg
      cases j with
      | zero =>
        simp only [List.getElem?_cons_zero, Option.some.injEq] at hjg
        subst hjg
        refine ⟨p, hp, ?_⟩
        simp
      | succ j =>
        simp only [List.getElem?_cons_succ] at hjg ⊢
        obtain ⟨p2, hp2, hr⟩ := hget j g hjg
        refine ⟨p2, hp2, ?_⟩
        have hadd : i + 1 + j = i + (j + 1) := by omega
        rw [hr, hadd]

/-- Claim C3.  After the pool drains, the summary CSV at
`outputRoot/conversion_summary.csv` is the header row followed by
exactly one row per enumerated job, and each row's status field is
`"Success"` exactly when that job's recomputed output path exists at
audit time. -/
theorem c3_summary_rows (env : MainEnv) (format_key : String)
    (h1 : env.sourceExists = true)
    (h2 : dictGet format_map env.formatChoice = some format_key) :
    ∃ rows,
      (mainRun env).csvPath
        = some ((env.scriptDir.div "output").div "conversion_summary.csv") ∧
      (mainRun env).csv = some (["File", "Status", "Timestamp"] :: rows) ∧
      rows.length = (filesOf env.entry env.sourcePath).length ∧
      ∀ (j : Nat) (f : PyPath), (filesOf env.entry env.sourcePath)[j]? = some f →
        ∃ p, auditOutputPath (env.scriptDir.div "output") format_key
            (inputBaseOf env.entry env.sourcePath) f format_key = some p ∧
          rows[j]? = some [pathStr f,
            if env.existsAt p then "Success" else "Failed", env.timestamps j] := by
  have hall : ∀ f ∈ filesOf env.entry env.sourcePath,
      ∃ p, auditOutputPath (env.scriptDir.div "output") format_key
        (inputBaseOf env.entry env.sourcePath) f format_key = some p := by
    intro f hf
    exact auditOutputPath_isSome_of_rel _ format_key format_key
      (filesOf_relative_to_isSome env.entry env.sourcePath f hf)
  obtain ⟨n, hn⟩ := successCountE_ok env.existsAt (env.scriptDir.div "output") format_key
    (inputBaseOf env.entry env.sourcePath) format_key
    (filesOf env.entry env.sourcePath) hall
  obtain ⟨rows, hrows, hlen, hget⟩ := buildRows_ok env.existsAt env.timestamps
    (env.scriptDir.div "output") format_key (inputBaseOf env.entry env.sourcePath)
    format_key (filesOf env.entry env.sourcePath) 0 hall
  refine ⟨rows, ?_, ?_, hlen, ?_⟩
  · simp only [mainRun, h1, h2, hn, hrows]
  · simp only [mainRun, h1, h2, hn, hrows]
  · intro j f hjf
    obtain ⟨p, hp, hr⟩ := hget j f hjf
    refine ⟨p, hp, ?_⟩
    rw [hr]
    simp

/-- Claim C3, witness: a directory with one PDF, menu choice 2 (json),
and an audit where every path exists. -/
theorem c3_summary_rows_witness :
    ∃ rows,
      (mainRun ⟨⟨["in"]⟩, true, FSEntry.dir "in" [FSEntry.file "a.pdf"], "2",
          false, false, ⟨["s"]⟩, fun _ => true, fun _ => "ts", "tm"⟩).csvPath
        = some (((⟨["s"]⟩ : PyPath).div "output").div "conversion_summary.csv") ∧
      (mainRun ⟨⟨["in"]⟩, true, FSEntry.dir "in" [FSEntry.file "a.pdf"], "2",
          false, false, ⟨["s"]⟩, fun _ => true, fun _ => "ts", "tm"⟩).csv
        = some (["File", "Status", "Timestamp"] :: rows) ∧
      rows.length = (filesOf (FSEntry.dir "in" [FSEntry.file "a.pdf"]) ⟨["in"]⟩).length ∧
      ∀ (j : Nat) (f : PyPath),
        (filesOf (FSEntry.dir "in" [FSEntry.file "a.pdf"]) ⟨["in"]⟩)[j]? = some f →
        ∃ p, auditOutputPath ((⟨["s"]⟩ : PyPath).div "output") "json"
            (inputBaseOf (FSEntry.dir "in" [FSEntry.file "a.pdf"]) ⟨["in"]⟩) f "json"
            = some p ∧
          rows[j]? = some [pathStr f,
            if (fun (_ : PyPath) => true) p then "Success" else "Failed",
            (fun (_ : Nat) => "ts") j] :=
  c3_summary_rows ⟨⟨["in"]⟩, true, FSEntry.dir "in" [FSEntry.file "a.pdf"], "2",
    false, false, ⟨["s"]⟩, fun _ => true, fun _ => "ts", "tm"⟩ "json" rfl (by decide)

/-- Claim C7, counterexample: `rglob` enumerates directories as well, so
for a tree whose only descendant is a directory named `sub.pdf` the
enumerated job list contains a path that is not a descendant regular
file with a supported extension. -/
theorem c7_directory_counterexample :
    ¬ (∀ p : PyPath,
      p ∈ filesOf (FSEntry.dir "root" [FSEntry.dir "sub.pdf" []]) ⟨["root"]⟩ ↔
      ∃ pr ∈ descendantsList [FSEntry.dir "sub.pdf" []],
        pr.2.isFile = true ∧
        supported_exts.contains (lowerStr (PyPath.suffix ⟨["root"] ++ pr.1⟩)) = true ∧
        p = ⟨["root"] ++ pr.1⟩) := by
  intro h
  have h0 := (h ⟨["root", "sub.pdf"]⟩).mp (by decide)
  exact absurd h0 (by decide)

/-- Claim C7, amended.  A single-file input enumerates exactly that file
with no extension filtering; a directory input enumerates exactly the
descendant entries (regular files or directories alike) of the full
recursive walk whose extension, lower-cased, is in the supported set. -/
theorem c7_enumeration_amended :
    (∀ (n : String) (sp : PyPath), filesOf (FSEntry.file n) sp = [sp]) ∧
    (∀ (n : String) (children : List FSEntry) (sp : PyPath) (p : PyPath),
      p ∈ filesOf (FSEntry.dir n children) sp ↔
      ∃ pr ∈ descendantsList children,
        supported_exts.contains (lowerStr (PyPath.suffix ⟨sp.components ++ pr.1⟩)) = true ∧
        p = ⟨sp.components ++ pr.1⟩) := by
  constructor
  · intro n sp
    rfl
  · intro n children sp p
    simp only [filesOf, List.mem_filterMap]
    constructor
    · rintro ⟨pr, hpr, hif⟩
      split at hif
      · exact ⟨pr, hpr, by assumption, (Option.some.inj hif).symm⟩
      · exact Option.noConfusion hif
    · rintro ⟨pr, hpr, hc, hp⟩
      subst hp
      refine ⟨pr, hpr, ?_⟩
      rw [hc]
      rfl

/-- Claim C7, witness: a single-file input is enumerated unfiltered. -/
theorem c7_enumeration_amended_witness :
    filesOf (FSEntry.file "na.docx") ⟨["d", "na.docx"]⟩ = [⟨["d", "na.docx"]⟩] :=
  c7_enumeration_amended.1 "na.docx" ⟨["d", "na.docx"]⟩

/-- Claim C8.  A missing input path aborts the run right after the
logged message: no jobs are enumerated, the pool never starts, and no
summary CSV is produced. -/
theorem c8_missing_input_aborts (env : MainEnv) (h : env.sourceExists = false) :
    mainRun env = ⟨[welcomeLine, notExistLine], false, none, none, none, false⟩ := by
  simp only [mainRun, h]
  rfl

/-- Claim C8, witness: a concrete environment whose input path does not
exist. -/
theorem c8_missing_input_aborts_witness :
    mainRun ⟨⟨["x"]⟩, false, FSEntry.file "x", "1", false, false, ⟨["s"]⟩,
      fun _ => false, fun _ => "t", "tm"⟩
    = ⟨[welcomeLine, notExistLine], false, none, none, none, false⟩ :=
  c8_missing_input_aborts ⟨⟨["x"]⟩, false, FSEntry.file "x", "1", false, false,
    ⟨["s"]⟩, fun _ => false, fun _ => "t", "tm"⟩ rfl

end DocLing
